import Mathlib

/-!
Verification of the todo-list state reducer of the redux-delete codealong.

The program under study is the reducer `manageTodo` together with the action
shapes dispatched by the components.  The repository shows several variants of
the reducer; the ones the claims refer to are:

* the module-level-counter variant (README lines 270-286):

    let id = 0;
    export default function manageTodo(state = { todos: [] }, action) {
      switch (action.type) {
        case 'ADD_TODO':
          id++;
          const todo = Object.assign(\x7b\x7d, action.todo, { id: id });
          return { todos: state.todos.concat(todo) };
        case 'DELETE_TODO':
          const todos = state.todos.filter(todo => todo.id !== action.id);
          return { todos }
        default:
          return state;
      }
    };

* the intermediate uuid variant (README lines 169-193), which stores
  `{id, text}` objects but still filters with the whole-object comparison
  `todo !== action.payload`;

* the final id-keyed variant (README lines 252-254), which filters with
  `todo.id !== action.payload`.

The module-level variable `id` is hidden mutable state; the embedding makes it
an explicit argument and result of `manageTodo`, so the Lean reducer maps
(counter, state, action) to (counter', state').
-/

namespace Redux

/-- A todo item as stored in the collection: `{ id: ..., text: ... }`. -/
structure Todo where
  id : Nat
  text : String
deriving DecidableEq, Repr

/-- The reducer state `{ todos: [...] }`. -/
structure TodoState where
  todos : List Todo
deriving DecidableEq, Repr

/-- The `action.todo` payload sent with an `ADD_TODO` action.  A caller may
include its own `id` field; `Object.assign({}, action.todo, { id: id })` in
the reducer overwrites it, so the embedding records it to show it is ignored. -/
structure ActionTodo where
  id : Option Nat
  text : String
deriving DecidableEq, Repr

/-- The dispatched actions: `ADD_TODO` carries `action.todo`, `DELETE_TODO`
carries `action.id`, and any other `action.type` string falls to the default
branch. -/
inductive Action where
  | addTodo (todo : ActionTodo)
  | deleteTodo (id : Nat)
  | unknown (tag : String)
deriving DecidableEq, Repr

/-- The module-level-counter reducer (README lines 270-286), with the hidden
module-level `id` counter made explicit: `manageTodo counter state action`
returns the counter after the call and the new state.
`ADD_TODO` increments the counter and appends
`Object.assign({}, action.todo, { id: id })`, i.e. an item whose `id` is the
incremented counter (overriding any `id` in `action.todo`) and whose `text`
comes from `action.todo`.  `DELETE_TODO` keeps the todos whose `id` differs
from `action.id`.  The default branch returns the state unchanged. -/
def manageTodo (counter : Nat) (state : TodoState) (action : Action) :
    Nat × TodoState :=
  match action with
  | .addTodo payload =>
      let newId := counter + 1
      let todo : Todo := { id := newId, text := payload.text }
      (newId, { todos := state.todos ++ [todo] })
  | .deleteTodo i =>
      (counter, { todos := state.todos.filter (fun todo => todo.id != i) })
  | .unknown _ => (counter, state)

/-- Running a sequence of dispatched actions from a given counter and state,
threading the module-level counter through. -/
def runActions (counter : Nat) (state : TodoState) :
    List Action → Nat × TodoState
  | [] => (counter, state)
  | a :: rest =>
      let next := manageTodo counter state a
      runActions next.1 next.2 rest

/-- The ids handed out by `ADD_TODO` along a run that starts with the given
counter value: each add assigns `counter + 1` and bumps the counter. -/
def assignedIds : Nat → List Action → List Nat
  | _, [] => []
  | c, Action.addTodo _ :: rest => (c + 1) :: assignedIds (c + 1) rest
  | c, Action.deleteTodo _ :: rest => assignedIds c rest
  | c, Action.unknown _ :: rest => assignedIds c rest

/-- The inductive invariant of the counter variant: every stored id is at most
the module-level counter, and the stored ids are pairwise distinct. -/
def CounterInv (counter : Nat) (state : TodoState) : Prop :=
  (∀ t ∈ state.todos, t.id ≤ counter) ∧
    state.todos.Pairwise (fun a b => a.id ≠ b.id)

instance (counter : Nat) (state : TodoState) :
    Decidable (CounterInv counter state) := by
  unfold CounterInv; infer_instance

/-! ## The intermediate uuid variant (README lines 169-193)

This variant stores `{id, text}` objects (ids produced by `uuid()`, so ids are
strings) but its `DELETE_TODO` branch still runs
`state.todos.filter(todo => todo !== action.payload)`, comparing the whole
object against the payload with JavaScript strict equality.  Strict equality
between an object and a primitive string is always false, and between two
objects it is reference identity, so the embedding gives each stored object a
reference token and models the payload as either an id string or an object
reference. -/

/-- A stored todo object in the uuid variant: JavaScript object identity is
modelled by the `ref` token assigned at allocation. -/
structure UuidTodo where
  ref : Nat
  id : String
  text : String
deriving DecidableEq, Repr

/-- State of the uuid-variant reducer. -/
structure UuidState where
  todos : List UuidTodo
deriving DecidableEq, Repr

/-- The `action.payload` of a `DELETE_TODO` in the uuid variant: either an id
string (what the final Todo component dispatches via `props.todo.id`) or an
object reference. -/
inductive UuidPayload where
  | idVal (s : String)
  | objVal (ref : Nat)
deriving DecidableEq, Repr

/-- JavaScript `todo !== action.payload` for a stored object `todo`:
an object is never strictly equal to a primitive string, and two objects are
strictly equal exactly when they are the same reference. -/
def jsStrictNe (t : UuidTodo) (p : UuidPayload) : Bool :=
  match p with
  | .idVal _ => true
  | .objVal r => t.ref != r

/-- The `DELETE_TODO` branch of the intermediate uuid variant (README lines
186-188): `{todos: state.todos.filter(todo => todo !== action.payload)}`. -/
def deleteUuidIntermediate (state : UuidState) (payload : UuidPayload) :
    UuidState :=
  { todos := state.todos.filter (fun todo => jsStrictNe todo payload) }

/-- The `DELETE_TODO` branch of the final id-keyed variant (README lines
252-254): `{todos: state.todos.filter(todo => todo.id !== action.payload)}`,
the payload being the id string dispatched by the Todo component. -/
def deleteUuidFinal (state : UuidState) (payload : String) : UuidState :=
  { todos := state.todos.filter (fun todo => todo.id != payload) }

/-! ## Helper lemmas -/

/-- A filter keeping the ids different from `i` keeps a list none of whose ids
is `i`. -/
theorem filter_id_ne_of_none_matches {l : List Todo} {i : Nat}
    (h : ∀ t ∈ l, t.id ≠ i) : l.filter (fun t => t.id != i) = l :=
  List.filter_eq_self.mpr fun t ht => by simpa using h t ht

/-- The initial configuration (`let id = 0` and the default state
`{ todos: [] }`) satisfies the counter invariant. -/
theorem counterInv_init : CounterInv 0 ⟨[]⟩ := by
  refine ⟨?_, List.Pairwise.nil⟩
  intro t ht
  cases ht

/-- One reducer call preserves the counter invariant. -/
theorem counterInv_step {c : Nat} {s : TodoState} (a : Action)
    (h : CounterInv c s) :
    CounterInv (manageTodo c s a).1 (manageTodo c s a).2 := by
  obtain ⟨hb, hp⟩ := h
  cases a with
  | addTodo p =>
      refine ⟨?_, ?_⟩
      · intro t ht
        simp only [manageTodo, List.mem_append, List.mem_singleton] at ht
        rcases ht with ht | ht
        · exact Nat.le_succ_of_le (hb t ht)
        · subst ht; exact Nat.le_refl _
      · simp only [manageTodo]
        refine List.pairwise_append.mpr
          ⟨hp, List.pairwise_singleton _ _, ?_⟩
        intro t ht t' ht'
        simp only [List.mem_singleton] at ht'
        subst ht'
        exact Nat.ne_of_lt (Nat.lt_succ_of_le (hb t ht))
  | deleteTodo i =>
      refine ⟨?_, ?_⟩
      · intro t ht
        simp only [manageTodo] at ht
        exact hb t (List.mem_of_mem_filter ht)
      · simp only [manageTodo]
        exact hp.sublist (List.filter_sublist _)
  | unknown tag => exact ⟨hb, hp⟩

/-- Running any sequence of actions preserves the counter invariant. -/
theorem counterInv_run {c : Nat} {s : TodoState} (h : CounterInv c s) :
    ∀ acts : List Action,
      CounterInv (runActions c s acts).1 (runActions c s acts).2
  | [] => h
  | a :: rest => counterInv_run (counterInv_step a h) rest

/-- A single reducer call never decreases the module-level counter. -/
theorem counter_le_step (c : Nat) (s : TodoState) (a : Action) :
    c ≤ (manageTodo c s a).1 := by
  cases a <;> simp [manageTodo]

/-- A run never decreases the module-level counter. -/
theorem counter_le_run (c : Nat) (s : TodoState) :
    ∀ acts : List Action, c ≤ (runActions c s acts).1
  | [] => Nat.le_refl c
  | a :: rest =>
      Nat.le_trans (counter_le_step c s a)
        (counter_le_run (manageTodo c s a).1 (manageTodo c s a).2 rest)

/-- Every id assigned during a run is at most the counter the run ends with. -/
theorem assignedIds_le (acts : List Action) :
    ∀ (c : Nat) (s : TodoState) (i : Nat),
      i ∈ assignedIds c acts → i ≤ (runActions c s acts).1 := by
  induction acts with
  | nil => intro c s i h; simp [assignedIds] at h
  | cons a rest ih =>
      intro c s i h
      cases a with
      | addTodo p =>
          simp only [assignedIds, List.mem_cons] at h
          rcases h with h | h
          · subst h
            simpa [runActions, manageTodo] using
              counter_le_run (c + 1) ⟨s.todos ++ [⟨c + 1, p.text⟩]⟩ rest
          · simpa [runActions, manageTodo] using
              ih (c + 1) ⟨s.todos ++ [⟨c + 1, p.text⟩]⟩ i h
      | deleteTodo j =>
          simp only [assignedIds] at h
          simpa [runActions, manageTodo] using
            ih c ⟨s.todos.filter (fun t => t.id != j)⟩ i h
      | unknown tag =>
          simp only [assignedIds] at h
          simpa [runActions, manageTodo] using ih c s i h

/-! ## Claim theorems -/

/-- C1: for every (counter, state) and every id, the `DELETE_TODO` transition
returns a state whose collection holds exactly the prior items whose id is not
the given id (stated as a membership characterisation), and when no item's id
matches, the returned collection equals the input collection: a no-op, not an
error. -/
theorem manageTodo_delete_spec (c : Nat) (s : TodoState) (i : Nat) :
    (∀ t : Todo,
        t ∈ ((manageTodo c s (.deleteTodo i)).2).todos ↔
          t ∈ s.todos ∧ t.id ≠ i) ∧
      ((∀ t ∈ s.todos, t.id ≠ i) →
        ((manageTodo c s (.deleteTodo i)).2).todos = s.todos) := by
  constructor
  · intro t
    simp [manageTodo, List.mem_filter]
  · intro h
    simpa [manageTodo] using filter_id_ne_of_none_matches h

/-- C1 witness: deleting the absent id 3 from a two-item collection returns
the collection unchanged. -/
theorem manageTodo_delete_spec_witness :
    ((manageTodo 2 ⟨[⟨1, "a"⟩, ⟨2, "b"⟩]⟩ (.deleteTodo 3)).2).todos
      = [⟨1, "a"⟩, ⟨2, "b"⟩] :=
  (manageTodo_delete_spec 2 ⟨[⟨1, "a"⟩, ⟨2, "b"⟩]⟩ 3).2 (by decide)

/-- C2: every state reachable from the initial configuration (`let id = 0`,
`{ todos: [] }`) by a sequence of add, delete and unrecognized actions has
pairwise distinct ids, and each single transition preserves the inductive
invariant (ids bounded by the module-level counter and pairwise distinct)
whose uniqueness part that is. -/
theorem reachable_ids_pairwise_distinct :
    (∀ acts : List Action,
        ((runActions 0 ⟨[]⟩ acts).2).todos.Pairwise fun a b => a.id ≠ b.id) ∧
      ∀ (c : Nat) (s : TodoState) (a : Action), CounterInv c s →
        CounterInv (manageTodo c s a).1 (manageTodo c s a).2 :=
  ⟨fun acts => (counterInv_run counterInv_init acts).2,
   fun _ _ a h => counterInv_step a h⟩

/-- C2 witness: the preservation part applied to a concrete invariant-holding
configuration. -/
theorem reachable_ids_pairwise_distinct_witness :
    CounterInv
      (manageTodo 2 ⟨[⟨1, "a"⟩, ⟨2, "b"⟩]⟩ (.addTodo ⟨none, "c"⟩)).1
      (manageTodo 2 ⟨[⟨1, "a"⟩, ⟨2, "b"⟩]⟩ (.addTodo ⟨none, "c"⟩)).2 :=
  reachable_ids_pairwise_distinct.2 2 ⟨[⟨1, "a"⟩, ⟨2, "b"⟩]⟩
    (.addTodo ⟨none, "c"⟩) (by decide)

/-- C3 counterexample: the reducer's output is not a function of its two
arguments `(state, action)` alone: the module-level `id` counter is hidden
state it reads and writes.  With the same state `{ todos: [] }` and the same
`ADD_TODO` action, counter value 0 and counter value 1 give different output
states (the new item's id differs). -/
theorem manageTodo_output_depends_on_hidden_counter :
    (manageTodo 0 ⟨[]⟩ (.addTodo ⟨none, "a"⟩)).2
      ≠ (manageTodo 1 ⟨[]⟩ (.addTodo ⟨none, "a"⟩)).2 := by
  decide

/-- C3 amended: the reducer is a deterministic function of its two arguments
TOGETHER WITH the module-level counter: `DELETE_TODO` and unrecognized
actions depend only on `(state, action)` (the counter does not influence
their output state), while `ADD_TODO` reads the counter, increments it, and
appends an item carrying the incremented value as id. -/
theorem manageTodo_deterministic_given_counter :
    (∀ c c' : Nat, ∀ (s : TodoState) (i : Nat),
        (manageTodo c s (.deleteTodo i)).2
          = (manageTodo c' s (.deleteTodo i)).2) ∧
      (∀ c c' : Nat, ∀ (s : TodoState) (tag : String),
        (manageTodo c s (.unknown tag)).2
          = (manageTodo c' s (.unknown tag)).2) ∧
      ∀ (c : Nat) (s : TodoState) (p : ActionTodo),
        manageTodo c s (.addTodo p)
          = (c + 1, ⟨s.todos ++ [⟨c + 1, p.text⟩]⟩) :=
  ⟨fun _ _ _ _ => rfl, fun _ _ _ _ => rfl, fun _ _ _ => rfl⟩

/-- C4 counterexample: id-uniqueness of the collection alone does not give
the round-trip.  At counter 0 with state `{ todos: [{id: 1, text: "x"}] }` —
whose ids are pairwise distinct — `ADD_TODO` assigns id 1 to the new item,
and the `DELETE_TODO` of that assigned id removes both the new item and the
pre-existing one, so the collection is not restored. -/
theorem add_then_delete_roundtrip_cex :
    (⟨[⟨1, "x"⟩]⟩ : TodoState).todos.Pairwise (fun a b => a.id ≠ b.id) ∧
      ((manageTodo (manageTodo 0 ⟨[⟨1, "x"⟩]⟩ (.addTodo ⟨none, "y"⟩)).1
          (manageTodo 0 ⟨[⟨1, "x"⟩]⟩ (.addTodo ⟨none, "y"⟩)).2
          (.deleteTodo
            (manageTodo 0 ⟨[⟨1, "x"⟩]⟩ (.addTodo ⟨none, "y"⟩)).1)).2).todos
        ≠ (⟨[⟨1, "x"⟩]⟩ : TodoState).todos := by
  decide

/-- C4 (amended): from any configuration satisfying the reducer's full
inductive invariant — every stored id at most the module-level counter, ids
pairwise distinct; the invariant every reachable configuration satisfies —
an `ADD_TODO` followed by a `DELETE_TODO` of the id assigned by that add
restores the collection exactly: same elements, same order.  The counter
bound is what makes the assigned id fresh; uniqueness alone does not suffice
(see the counterexample). -/
theorem add_then_delete_roundtrip (c : Nat) (s : TodoState) (p : ActionTodo)
    (h : CounterInv c s) :
    ((manageTodo (manageTodo c s (.addTodo p)).1
        (manageTodo c s (.addTodo p)).2
        (.deleteTodo (manageTodo c s (.addTodo p)).1)).2).todos
      = s.todos := by
  simp only [manageTodo, List.filter_append]
  rw [filter_id_ne_of_none_matches
    (fun t ht => Nat.ne_of_lt (Nat.lt_succ_of_le (h.1 t ht)))]
  simp

/-- C4 witness: adding "c" to a two-item collection and deleting the assigned
id (3) restores the original collection. -/
theorem add_then_delete_roundtrip_witness :
    ((manageTodo (manageTodo 2 ⟨[⟨1, "a"⟩, ⟨2, "b"⟩]⟩ (.addTodo ⟨none, "c"⟩)).1
        (manageTodo 2 ⟨[⟨1, "a"⟩, ⟨2, "b"⟩]⟩ (.addTodo ⟨none, "c"⟩)).2
        (.deleteTodo
          (manageTodo 2 ⟨[⟨1, "a"⟩, ⟨2, "b"⟩]⟩ (.addTodo ⟨none, "c"⟩)).1)).2).todos
      = [⟨1, "a"⟩, ⟨2, "b"⟩] :=
  add_then_delete_roundtrip 2 ⟨[⟨1, "a"⟩, ⟨2, "b"⟩]⟩ ⟨none, "c"⟩ (by decide)

/-- C5: for every (counter, state) and every `ADD_TODO` payload — any text,
including the empty string, and any caller-supplied id field — the transition
returns the prior collection with exactly one new item appended at the end,
carrying the payload's text and the freshly incremented counter as id; the
prefix of existing items is reproduced unchanged and in order, and (under the
counter bound every reachable state satisfies) the fresh id differs from
every existing item's id. -/
theorem manageTodo_add_spec (c : Nat) (s : TodoState) (p : ActionTodo) :
    ((manageTodo c s (.addTodo p)).2).todos
        = s.todos ++ [{ id := c + 1, text := p.text }] ∧
      ((∀ t ∈ s.todos, t.id ≤ c) → ∀ t ∈ s.todos, t.id ≠ c + 1) :=
  ⟨rfl, fun h t ht => Nat.ne_of_lt (Nat.lt_succ_of_le (h t ht))⟩

/-- C5 witness: adding text "b" (payload even carries a bogus id 99) to a
one-item collection appends exactly `{id := 3, text := "b"}`. -/
theorem manageTodo_add_spec_witness :
    ((manageTodo 2 ⟨[⟨1, "a"⟩]⟩ (.addTodo ⟨some 99, "b"⟩)).2).todos
      = [⟨1, "a"⟩, ⟨3, "b"⟩] := by
  have h := (manageTodo_add_spec 2 ⟨[⟨1, "a"⟩]⟩ ⟨some 99, "b"⟩).1
  simpa using h

/-- C6: Delete is idempotent: applying `DELETE_TODO` with the same id to the
state a first `DELETE_TODO` produced returns that state unchanged. -/
theorem manageTodo_delete_idempotent (c : Nat) (s : TodoState) (i : Nat) :
    (manageTodo (manageTodo c s (.deleteTodo i)).1
        (manageTodo c s (.deleteTodo i)).2 (.deleteTodo i)).2
      = (manageTodo c s (.deleteTodo i)).2 := by
  simp only [manageTodo]
  exact congrArg TodoState.mk
    (List.filter_eq_self.mpr fun t ht => (List.mem_filter.mp ht).2)

/-- C7: any action whose type is neither `ADD_TODO` nor `DELETE_TODO` falls
to the reducer's default branch, which returns the input state unchanged and
leaves the counter untouched: an identity transition, never an error. -/
theorem manageTodo_unrecognized_identity (c : Nat) (s : TodoState)
    (tag : String) :
    manageTodo c s (.unknown tag) = (c, s) := rfl

/-- C8: the items surviving a `DELETE_TODO` form a sublist of the input
collection: they appear in the output in the same relative order as in the
input, so Delete never reorders surviving elements. -/
theorem manageTodo_delete_preserves_order (c : Nat) (s : TodoState) (i : Nat) :
    ((manageTodo c s (.deleteTodo i)).2).todos.Sublist s.todos := by
  simp only [manageTodo]
  exact List.filter_sublist _

/-- C9: in the intermediate uuid variant, whose `DELETE_TODO` still compares
the whole stored object with the payload (`todo !== action.payload`),
dispatching a delete whose payload is an id string removes nothing — a stored
object is never strictly equal to a primitive string — so the returned
collection holds every item of the input; and on a concrete one-item state
this differs from the final id-keyed variant, which does remove the item. -/
theorem uuid_variant_delete_by_id_removes_nothing :
    (∀ (s : UuidState) (i : String),
        (deleteUuidIntermediate s (.idVal i)).todos = s.todos) ∧
      deleteUuidIntermediate ⟨[⟨0, "a", "x"⟩]⟩ (.idVal "a")
        ≠ deleteUuidFinal ⟨[⟨0, "a", "x"⟩]⟩ "a" := by
  constructor
  · intro s i
    simp [deleteUuidIntermediate, jsStrictNe]
  · decide

/-- C10: in the counter variant, (1) along every run from the initial
configuration, every stored id is at most the module-level counter; (2) the
counter strictly increases (to `c + 1`) on every `ADD_TODO`; (3, 4) it is
unchanged by `DELETE_TODO` and by unrecognized actions; (5) `ADD_TODO`
appends an item whose id is the incremented counter whatever id field the
`action.todo` payload carried — `Object.assign({}, action.todo, {id: id})`
overwrites it, so a caller can never choose an item's id; and (6) the id a
further add would assign (final counter + 1) differs from every id assigned
at any earlier point of the run, including ids of since-deleted items. -/
theorem counter_variant_id_discipline :
    (∀ acts : List Action, ∀ t ∈ ((runActions 0 ⟨[]⟩ acts).2).todos,
        t.id ≤ (runActions 0 ⟨[]⟩ acts).1) ∧
      (∀ (c : Nat) (s : TodoState) (p : ActionTodo),
        (manageTodo c s (.addTodo p)).1 = c + 1) ∧
      (∀ (c : Nat) (s : TodoState) (i : Nat),
        (manageTodo c s (.deleteTodo i)).1 = c) ∧
      (∀ (c : Nat) (s : TodoState) (tag : String),
        (manageTodo c s (.unknown tag)).1 = c) ∧
      (∀ (c : Nat) (s : TodoState) (p : ActionTodo),
        ((manageTodo c s (.addTodo p)).2).todos.getLast?
          = some { id := c + 1, text := p.text }) ∧
      ∀ acts : List Action,
        (runActions 0 ⟨[]⟩ acts).1 + 1 ∉ assignedIds 0 acts := by
  refine ⟨?_, fun _ _ _ => rfl, fun _ _ _ => rfl, fun _ _ _ => rfl, ?_, ?_⟩
  · intro acts t ht
    exact (counterInv_run counterInv_init acts).1 t ht
  · intro c s p
    simp [manageTodo]
  · intro acts h
    have hle := assignedIds_le acts 0 ⟨[]⟩ _ h
    omega

/-- C10 witness: after one add, the stored item ⟨1, "a"⟩ has id at most the
counter, by the theorem's bound applied at a concrete run. -/
theorem counter_variant_id_discipline_witness :
    (⟨1, "a"⟩ : Todo)
        ∈ ((runActions 0 ⟨[]⟩ [Action.addTodo ⟨some 5, "a"⟩]).2).todos ∧
      (1 : Nat) ≤ (runActions 0 ⟨[]⟩ [Action.addTodo ⟨some 5, "a"⟩]).1 :=
  ⟨by decide,
   counter_variant_id_discipline.1 [Action.addTodo ⟨some 5, "a"⟩] ⟨1, "a"⟩
     (by decide)⟩

end Redux
